import Mathlib

/-
Verification of the hls_transcoder pipeline builder against its
natural-language specification.

The Rust sources are shallowly embedded: each GStreamer element is a record
of a factory name, an element name and an association list of properties
(set_property is modelled as an insert-or-overwrite on that list); element
instantiation is parameterised by an `Engine` telling which factory names the
underlying engine can instantiate (ElementFactory::make_with_name returns
none when the factory is unavailable); Rust panics (expect / unwrap / todo!)
are made explicit through the `PanicOr` result type; fallible Rust functions
returning anyhow::Result are embedded as `Except String`.
-/

set_option autoImplicit false

namespace HlsTranscoder

/-- A single caps field value (gst::Caps fields used by CapsFilterBuilder). -/
inductive CapsVal where
  | int (v : Int)
  | str (s : String)
  deriving DecidableEq

/-- A GObject property value as stored on an element: i32, u32, string,
boolean, or a caps structure (media type plus fields). -/
inductive PropVal where
  | int (v : Int)
  | uint (v : Nat)
  | str (s : String)
  | bool (b : Bool)
  | caps (mediaType : String) (fields : List (String × CapsVal))
  deriving DecidableEq

/-- A GStreamer element: factory it was made from, its unique name inside the
pipeline, and its property store. -/
structure Element where
  factory : String
  name : String
  props : List (String × PropVal)
  deriving DecidableEq

/-- Embedding of gst set_property: insert or overwrite the property. -/
def Element.setProp (e : Element) (k : String) (v : PropVal) : Element :=
  { e with props := (k, v) :: e.props.filter (fun p => !(p.1 == k)) }

/-- Embedding of gst property lookup (the value a later reader observes). -/
def Element.getProp (e : Element) (k : String) : Option PropVal :=
  (e.props.find? (fun p => p.1 == k)).map (fun p => p.2)

/-- Which element factories the underlying engine can instantiate; a missing
hardware capability makes a factory (for example nvh264enc) unavailable. -/
def Engine : Type := String → Bool

/-- Embedding of gst::ElementFactory::make_with_name. -/
def makeWithName (engine : Engine) (factory : String) (name : String) :
    Option Element :=
  if engine factory then some { factory := factory, name := name, props := [] }
  else none

/-- Result of Rust code that can panic (expect / unwrap / todo!): either the
value, or a process abort carrying the panic message. -/
inductive PanicOr (α : Type) where
  | ok (a : α)
  | panicked (msg : String)
  deriving DecidableEq

/-- Sequencing for possibly-panicking computations. -/
def PanicOr.bind {α β : Type} : PanicOr α → (α → PanicOr β) → PanicOr β
  | .ok a, f => f a
  | .panicked m, _ => .panicked m

/- ----------------------------------------------------------------
src/elements_builder/nvh264enc.rs
---------------------------------------------------------------- -/

/-- Builder for the hardware (NVENC) encoder element. -/
structure NVH264EncBuilder where
  element : Element
  deriving DecidableEq

/-- Embedding of the VALID_PROFILES constant of NVH264EncBuilder. -/
def NVH264EncBuilder.VALID_PROFILES : List String :=
  [("main"), ("high"), ("high-4:4:4"), ("baseline"), ("constrained-baseline")]

/-- Embedding of NVH264EncBuilder::new: make_with_name + expect, so an
unavailable nvh264enc factory panics instead of returning an error. -/
def NVH264EncBuilder.new (engine : Engine) : PanicOr NVH264EncBuilder :=
  match makeWithName engine ("nvh264enc") ("video_encoder") with
  | some element => .ok { element := element }
  | none => .panicked ("Failed to create nvh264enc element")

/-- Embedding of NVH264EncBuilder::with_bitrate (cap at 2_048_000, then
integer-divide by 1000 when above 1_000_000, store as u32 property). -/
def NVH264EncBuilder.with_bitrate (b : NVH264EncBuilder) (bitrate : Nat) :
    NVH264EncBuilder :=
  let capped_bitrate := min bitrate 2048000
  let final_bitrate :=
    if capped_bitrate > 1000000 then capped_bitrate / 1000 else capped_bitrate
  { element := b.element.setProp ("bitrate") (.uint final_bitrate) }

/-- Embedding of NVH264EncBuilder::with_bframes. -/
def NVH264EncBuilder.with_bframes (b : NVH264EncBuilder) (bframes : Nat) :
    NVH264EncBuilder :=
  let bframes2 := min bframes 4
  { element := b.element.setProp ("bframes") (.uint bframes2) }

/-- Embedding of NVH264EncBuilder::with_gop_size (clamp to -1 ..= i32::MAX). -/
def NVH264EncBuilder.with_gop_size (b : NVH264EncBuilder) (size : Int) :
    NVH264EncBuilder :=
  let gop_size := max (-1) (min size 2147483647)
  { element := b.element.setProp ("gop-size") (.int gop_size) }

/-- Embedding of NVH264EncBuilder::with_rate_control_mode. -/
def NVH264EncBuilder.with_rate_control_mode (b : NVH264EncBuilder)
    (rate_control : String) : NVH264EncBuilder :=
  { element := b.element.setProp ("rc-mode") (.str rate_control) }

/-- Embedding of NVH264EncBuilder::with_preset. -/
def NVH264EncBuilder.with_preset (b : NVH264EncBuilder) (preset : String) :
    NVH264EncBuilder :=
  { element := b.element.setProp ("preset") (.str preset) }

/-- Embedding of NVH264EncBuilder::with_profile: membership in VALID_PROFILES
decides between setting the property and an anyhow error; never panics. -/
def NVH264EncBuilder.with_profile (b : NVH264EncBuilder) (profile : String) :
    PanicOr (Except String NVH264EncBuilder) :=
  .ok (if NVH264EncBuilder.VALID_PROFILES.contains profile then
    .ok { element := b.element.setProp ("profile") (.str profile) }
  else
    .error ("Invalid profile: " ++ profile ++ ". Valid options are: " ++
      toString NVH264EncBuilder.VALID_PROFILES))

/-- Embedding of NVH264EncBuilder::default: new() then the chained property
defaults; the chain mutates one element in place. -/
def NVH264EncBuilder.default (engine : Engine) : PanicOr NVH264EncBuilder :=
  (NVH264EncBuilder.new engine).bind (fun builder =>
    .ok (((((builder.with_bitrate 1000).with_gop_size 75).with_bframes
      0).with_preset ("hp")).with_rate_control_mode ("cbr")))

/-- Embedding of NVH264EncBuilder::build (H264EncBuilder impl): always Ok. -/
def NVH264EncBuilder.build (b : NVH264EncBuilder) : Except String Element :=
  .ok b.element

/- ----------------------------------------------------------------
src/elements_builder/xh264enc.rs
---------------------------------------------------------------- -/

/-- Builder for the software (x264) encoder element. -/
structure Xh264EncBuilder where
  element : Element
  deriving DecidableEq

/-- Embedding of the VALID_PROFILES constant of Xh264EncBuilder: empty. -/
def Xh264EncBuilder.VALID_PROFILES : List String := []

/-- Embedding of Xh264EncBuilder::new: make_with_name + unwrap (panic when
x264enc is unavailable), then the four fixed property writes. -/
def Xh264EncBuilder.new (engine : Engine) : PanicOr Xh264EncBuilder :=
  match makeWithName engine ("x264enc") ("video_encoder") with
  | some element =>
      .ok { element :=
        ((((element.setProp ("speed-preset") (.str ("superfast"))).setProp
          ("tune") (.str ("zerolatency"))).setProp
          ("threads") (.uint 16)).setProp
          ("key-int-max") (.uint 30)) }
  | none => .panicked ("called Option::unwrap on a None value")

/-- Embedding of Xh264EncBuilder::default: new() with every chained override
commented out in the source, so it is new() unchanged. -/
def Xh264EncBuilder.default (engine : Engine) : PanicOr Xh264EncBuilder :=
  Xh264EncBuilder.new engine

/-- Embedding of Xh264EncBuilder::with_bitrate: explicit if-cap at 2_048_000,
then integer-divide by 1000 when above 1_000_000. -/
def Xh264EncBuilder.with_bitrate (b : Xh264EncBuilder) (bitrate : Nat) :
    Xh264EncBuilder :=
  let capped_bitrate := if bitrate > 2048000 then 2048000 else bitrate
  let final_bitrate :=
    if capped_bitrate > 1000000 then capped_bitrate / 1000 else capped_bitrate
  { element := b.element.setProp ("bitrate") (.uint final_bitrate) }

/-- Embedding of Xh264EncBuilder::with_profile: the body is todo!(), which
panics on every input. -/
def Xh264EncBuilder.with_profile (_b : Xh264EncBuilder) (_profile : String) :
    PanicOr (Except String Xh264EncBuilder) :=
  .panicked ("not yet implemented")

/-- Embedding of Xh264EncBuilder::build (H264EncBuilder impl): always Ok. -/
def Xh264EncBuilder.build (b : Xh264EncBuilder) : Except String Element :=
  .ok b.element

/- ----------------------------------------------------------------
Specification-side definition for the refinement claims about bitrate
clamping (written from the spec text, to be compared with the source
embeddings above).
---------------------------------------------------------------- -/

/-- Spec-side clamp_bitrate, transcribed from the specification's words:
result = min(requested, 2_048_000); if result > 1_000_000 the result is
divided by 1000 with integer division. -/
def clamp_bitrate_spec (requested : Nat) : Nat :=
  let r := min requested 2048000
  if r > 1000000 then r / 1000 else r

theorem nv_with_bitrate_stored (b : NVH264EncBuilder) (x : Nat) :
    (b.with_bitrate x).element.getProp ("bitrate") =
      some (.uint (clamp_bitrate_spec x)) := rfl

theorem x264_capped_eq_min (x : Nat) :
    (if x > 2048000 then 2048000 else x) = min x 2048000 := by
  rcases Nat.lt_or_ge 2048000 x with h | h
  · simp [h, Nat.min_eq_right (Nat.le_of_lt h)]
  · simp [Nat.not_lt.mpr h, Nat.min_eq_left h]

theorem x264_with_bitrate_stored (b : Xh264EncBuilder) (x : Nat) :
    (b.with_bitrate x).element.getProp ("bitrate") =
      some (.uint (clamp_bitrate_spec x)) := by
  unfold Xh264EncBuilder.with_bitrate clamp_bitrate_spec
  rw [x264_capped_eq_min]
  rfl

theorem clamp_bitrate_spec_le (x : Nat) : clamp_bitrate_spec x ≤ 2048000 := by
  unfold clamp_bitrate_spec
  have hmin : min x 2048000 ≤ 2048000 := Nat.min_le_right x 2048000
  by_cases h : min x 2048000 > 1000000
  · simp only [h, if_true]
    exact Nat.le_trans (Nat.div_le_self _ _) hmin
  · simp only [h, if_false]
    exact hmin

theorem clamp_bitrate_spec_le_million (x : Nat) :
    clamp_bitrate_spec x ≤ 1000000 := by
  unfold clamp_bitrate_spec
  have hmin : min x 2048000 ≤ 2048000 := Nat.min_le_right x 2048000
  by_cases h : min x 2048000 > 1000000
  · simp only [h, if_true]
    have : min x 2048000 / 1000 ≤ 2048000 / 1000 :=
      Nat.div_le_div_right hmin
    exact Nat.le_trans this (by norm_num)
  · simp only [h, if_false]
    exact Nat.not_lt.mp h

theorem clamp_bitrate_spec_fixed (v : Nat) (h : v ≤ 1000000) :
    clamp_bitrate_spec v = v := by
  unfold clamp_bitrate_spec
  have hmin : min v 2048000 = v :=
    Nat.min_eq_left (Nat.le_trans h (by norm_num))
  rw [hmin]
  simp [Nat.not_lt.mpr h]

/-- C1: for every u32 input, with_bitrate (hardware and software variant
alike) first caps the value at 2,048,000 and then integer-divides the capped
value by 1000 when it exceeds 1,000,000, storing the result as the bitrate
property; input 3,000,000 yields 2048, input 500,000 yields 500,000, and the
stored value is always at most 2,048,000. -/
theorem with_bitrate_clamps (b : NVH264EncBuilder) (bx : Xh264EncBuilder)
    (x : Nat) :
    (b.with_bitrate x).element.getProp ("bitrate") =
        some (.uint (clamp_bitrate_spec x)) ∧
    (bx.with_bitrate x).element.getProp ("bitrate") =
        some (.uint (clamp_bitrate_spec x)) ∧
    clamp_bitrate_spec 3000000 = 2048 ∧
    clamp_bitrate_spec 500000 = 500000 ∧
    clamp_bitrate_spec x ≤ 2048000 := by
  refine ⟨nv_with_bitrate_stored b x, x264_with_bitrate_stored bx x, ?_, ?_,
    clamp_bitrate_spec_le x⟩
  · decide
  · decide

/-- C9: the value with_bitrate actually stores is at most 1,000,000 for every
input, and the clamping is idempotent: feeding the stored value back through
with_bitrate stores it unchanged, for both encoder variants. -/
theorem with_bitrate_le_million_and_idempotent (b : NVH264EncBuilder)
    (bx : Xh264EncBuilder) (x : Nat) :
    (∃ v, (b.with_bitrate x).element.getProp ("bitrate") = some (.uint v) ∧
      v ≤ 1000000 ∧
      ((b.with_bitrate x).with_bitrate v).element.getProp ("bitrate") =
        some (.uint v)) ∧
    (∃ v, (bx.with_bitrate x).element.getProp ("bitrate") = some (.uint v) ∧
      v ≤ 1000000 ∧
      ((bx.with_bitrate x).with_bitrate v).element.getProp ("bitrate") =
        some (.uint v)) := by
  constructor
  · refine ⟨clamp_bitrate_spec x, nv_with_bitrate_stored b x,
      clamp_bitrate_spec_le_million x, ?_⟩
    rw [nv_with_bitrate_stored,
      clamp_bitrate_spec_fixed _ (clamp_bitrate_spec_le_million x)]
  · refine ⟨clamp_bitrate_spec x, x264_with_bitrate_stored bx x,
      clamp_bitrate_spec_le_million x, ?_⟩
    rw [x264_with_bitrate_stored,
      clamp_bitrate_spec_fixed _ (clamp_bitrate_spec_le_million x)]

/- ----------------------------------------------------------------
src/elements_builder/filesrc.rs, decodebin.rs, capsfilter.rs,
mpegtsmux.rs, hlssink3.rs
---------------------------------------------------------------- -/

/-- Builder for the filesrc element. -/
structure FileSrcBuilder where
  element : Element
  deriving DecidableEq

/-- Embedding of FileSrcBuilder::new: make_with_name + expect, then the
blocksize and location property writes. -/
def FileSrcBuilder.new (engine : Engine) (location : String) :
    PanicOr FileSrcBuilder :=
  match makeWithName engine ("filesrc") ("filesrc") with
  | some element =>
      .ok { element :=
        ((element.setProp ("blocksize") (.uint 65536)).setProp
          ("location") (.str location)) }
  | none => .panicked ("Failed to create filesrc element")

/-- Embedding of FileSrcBuilder::build: always Ok. -/
def FileSrcBuilder.build (b : FileSrcBuilder) : Except String Element :=
  .ok b.element

/-- Builder for the decodebin element. -/
structure DecodeBinBuilder where
  element : Element
  deriving DecidableEq

/-- Embedding of DecodeBinBuilder::new: make_with_name + expect. -/
def DecodeBinBuilder.new (engine : Engine) : PanicOr DecodeBinBuilder :=
  match makeWithName engine ("decodebin") ("decodebin") with
  | some element => .ok { element := element }
  | none => .panicked ("Failed to create decodebin element")

/-- Embedding of DecodeBinBuilder::build: always Ok. -/
def DecodeBinBuilder.build (b : DecodeBinBuilder) : Except String Element :=
  .ok b.element

/-- Builder for the capsfilter element: the element plus the caps fields
accumulated by the gst::Caps builder. -/
structure CapsFilterBuilder where
  element : Element
  mediaType : String
  fields : List (String × CapsVal)
  deriving DecidableEq

/-- Embedding of CapsFilterBuilder::new: make_with_name + expect, and an empty
caps builder for the given media type. -/
def CapsFilterBuilder.new (engine : Engine) (media_type : String) :
    PanicOr CapsFilterBuilder :=
  match makeWithName engine ("capsfilter") ("capsfilter") with
  | some element =>
      .ok { element := element, mediaType := media_type, fields := [] }
  | none => .panicked ("Failed to create capsfilter element")

/-- Embedding of CapsFilterBuilder::with_width. -/
def CapsFilterBuilder.with_width (b : CapsFilterBuilder) (width : Int) :
    CapsFilterBuilder :=
  { b with fields := b.fields ++ [(("width"), .int width)] }

/-- Embedding of CapsFilterBuilder::with_height. -/
def CapsFilterBuilder.with_height (b : CapsFilterBuilder) (height : Int) :
    CapsFilterBuilder :=
  { b with fields := b.fields ++ [(("height"), .int height)] }

/-- Embedding of CapsFilterBuilder::with_profile (a caps field, no
validation). -/
def CapsFilterBuilder.with_profile (b : CapsFilterBuilder) (profile : String) :
    CapsFilterBuilder :=
  { b with fields := b.fields ++ [(("profile"), .str profile)] }

/-- Embedding of CapsFilterBuilder::build: set the accumulated caps on the
element and return it. -/
def CapsFilterBuilder.build (b : CapsFilterBuilder) : Except String Element :=
  .ok (b.element.setProp ("caps") (.caps b.mediaType b.fields))

/-- Builder for the mpegtsmux element. -/
structure MpegTsMuxBuilder where
  element : Element
  deriving DecidableEq

/-- Embedding of MpegTsMuxBuilder::new: make_with_name + expect, then the four
default property writes (alignment i32 1, pat-interval u32 500, pmt-interval
u32 500, pcr-interval u32 20). -/
def MpegTsMuxBuilder.new (engine : Engine) : PanicOr MpegTsMuxBuilder :=
  match makeWithName engine ("mpegtsmux") ("mpegtsmux") with
  | some element =>
      .ok { element :=
        ((((element.setProp ("alignment") (.int 1)).setProp
          ("pat-interval") (.uint 500)).setProp
          ("pmt-interval") (.uint 500)).setProp
          ("pcr-interval") (.uint 20)) }
  | none => .panicked ("Failed to create mpegtsmux element")

/-- Embedding of MpegTsMuxBuilder::with_alignment. -/
def MpegTsMuxBuilder.with_alignment (b : MpegTsMuxBuilder) (alignment : Int) :
    MpegTsMuxBuilder :=
  { element := b.element.setProp ("alignment") (.int alignment) }

/-- Embedding of MpegTsMuxBuilder::with_pat_interval. -/
def MpegTsMuxBuilder.with_pat_interval (b : MpegTsMuxBuilder)
    (interval : Nat) : MpegTsMuxBuilder :=
  { element := b.element.setProp ("pat-interval") (.uint interval) }

/-- Embedding of MpegTsMuxBuilder::with_pmt_interval. -/
def MpegTsMuxBuilder.with_pmt_interval (b : MpegTsMuxBuilder)
    (interval : Nat) : MpegTsMuxBuilder :=
  { element := b.element.setProp ("pmt-interval") (.uint interval) }

/-- Embedding of MpegTsMuxBuilder::with_pcr_interval. -/
def MpegTsMuxBuilder.with_pcr_interval (b : MpegTsMuxBuilder)
    (interval : Nat) : MpegTsMuxBuilder :=
  { element := b.element.setProp ("pcr-interval") (.uint interval) }

/-- Embedding of MpegTsMuxBuilder::build: always Ok. -/
def MpegTsMuxBuilder.build (b : MpegTsMuxBuilder) : Except String Element :=
  .ok b.element

/-- Builder for the hlssink element (segment writer). -/
structure HlsSink3Builder where
  element : Element
  deriving DecidableEq

/-- Embedding of HlsSink3Builder::new: make_with_name + expect, then the
default property writes; segment location and playlist location are the two
constructor arguments suffixed with the fixed file patterns. -/
def HlsSink3Builder.new (engine : Engine) (location : String)
    (playlist_location : String) : PanicOr HlsSink3Builder :=
  match makeWithName engine ("hlssink") ("hls_sink") with
  | some element =>
      .ok { element :=
        (((((element.setProp ("target-duration") (.uint 5)).setProp
          ("playlist-length") (.uint 0)).setProp
          ("max-files") (.uint 0)).setProp
          ("location") (.str (location ++ "/segment_%02d.ts"))).setProp
          ("playlist-location")
          (.str (playlist_location ++ "/playlist.m3u8"))) }
  | none => .panicked ("Failed to create hlssink3 element")

/-- Embedding of HlsSink3Builder::build: always Ok. -/
def HlsSink3Builder.build (b : HlsSink3Builder) : Except String Element :=
  .ok b.element

/- ----------------------------------------------------------------
src/pipeline_builder.rs
---------------------------------------------------------------- -/

/-- Embedding of the H264Encoder enum of pipeline_builder.rs. -/
inductive H264Encoder where
  | nvenc (b : NVH264EncBuilder)
  | x264 (b : Xh264EncBuilder)
  deriving DecidableEq

/-- Embedding of H264Encoder::with_bitrate: dispatch to the variant. -/
def H264Encoder.with_bitrate (e : H264Encoder) (bitrate : Nat) : H264Encoder :=
  match e with
  | .nvenc b => .nvenc (b.with_bitrate bitrate)
  | .x264 b => .x264 (b.with_bitrate bitrate)

/-- Embedding of H264Encoder::build: dispatch to the variant. -/
def H264Encoder.build (e : H264Encoder) : Except String Element :=
  match e with
  | .nvenc b => b.build
  | .x264 b => b.build

/-- Embedding of the PipelineBuilder struct. -/
structure PipelineBuilder where
  input_file : String
  variant_name : String
  filesrc : FileSrcBuilder
  decodebin : DecodeBinBuilder
  capsfilter : CapsFilterBuilder
  mpegtsmux : MpegTsMuxBuilder
  video_encoder : H264Encoder
  hlssink : HlsSink3Builder
  nvh : Bool
  deriving DecidableEq

/-- Embedding of PipelineBuilder::new: sub-builder construction in source
order; any expect/unwrap panic inside a sub-builder aborts (PanicOr). -/
def PipelineBuilder.new (engine : Engine) (input_file : String)
    (variant_dir : String) (variant_name : String) (width : Int)
    (height : Int) (bitrate : Nat) (acceleration : Bool) :
    PanicOr PipelineBuilder :=
  let variant_dir2 := variant_dir ++ "/" ++ variant_name
  (FileSrcBuilder.new engine input_file).bind (fun filesrc =>
  (DecodeBinBuilder.new engine).bind (fun decodebin =>
  (CapsFilterBuilder.new engine ("video/x-raw")).bind (fun cf =>
  let capsfilter :=
    ((cf.with_width width).with_height height).with_profile ("high")
  (MpegTsMuxBuilder.new engine).bind (fun m =>
  let mpegtsmux :=
    ((m.with_alignment 1).with_pat_interval 2000).with_pcr_interval 40
  (if acceleration then
      (NVH264EncBuilder.default engine).bind
        (fun b => PanicOr.ok (H264Encoder.nvenc b))
    else
      (Xh264EncBuilder.default engine).bind
        (fun b => PanicOr.ok (H264Encoder.x264 b))).bind (fun ve =>
  let video_encoder := ve.with_bitrate bitrate
  (HlsSink3Builder.new engine variant_dir2 variant_dir2).bind (fun hlssink =>
  .ok
    { input_file := input_file, variant_name := variant_name,
      filesrc := filesrc, decodebin := decodebin, capsfilter := capsfilter,
      mpegtsmux := mpegtsmux, video_encoder := video_encoder,
      hlssink := hlssink, nvh := acceleration }))))))

/-- The graph returned by PipelineBuilder::build: its name, the elements
added to it, the links established before any stream discovery (as pairs of
element names), and whether the pad-added callback has been registered on the
decoder. -/
structure Pipeline where
  name : String
  elements : List Element
  links : List (String × String)
  padAddedRegistered : Bool
  deriving DecidableEq

/-- Embedding of anyhow's Result::context: on error, wrap the message. -/
def exceptContext {α : Type} (r : Except String α) (ctx : String) :
    Except String α :=
  match r with
  | .ok a => .ok a
  | .error e => .error (ctx ++ ": " ++ e)

/-- Embedding of PipelineBuilder::create_queue: factory queue with the given
name, an Err (not a panic) when unavailable. -/
def PipelineBuilder.create_queue (engine : Engine) (name : String) :
    Except String Element :=
  match makeWithName engine ("queue") name with
  | some e => .ok e
  | none => .error ("no such element factory queue")

/-- Embedding of PipelineBuilder::create_element: factory and name coincide,
an Err (not a panic) when unavailable. -/
def PipelineBuilder.create_element (engine : Engine) (factory_name : String) :
    Except String Element :=
  match makeWithName engine factory_name factory_name with
  | some e => .ok e
  | none => .error ("no such element factory " ++ factory_name)

/-- Embedding of Pipeline::by_name: first element with the given name. -/
def Pipeline.by_name (p : Pipeline) (n : String) : Option Element :=
  p.elements.find? (fun e => e.name == n)

/-- Embedding of PipelineBuilder::build: create the remaining elements (each
failure contexted and aborting the build), add all fifteen elements, link
filesrc to decodebin, register the pad-added callback, and link the muxer to
the segment writer when an element named mpegtsmux is present. The decoder to
branch links are left to the pad-added callback. Pipeline::add_many is
modelled as succeeding on these freshly created elements, and the two static
link calls as succeeding between elements present in the pipeline. -/
def PipelineBuilder.build (engine : Engine) (self : PipelineBuilder) :
    Except String Pipeline := do
  let pipeline_name := "pipeline_" ++ self.variant_name
  let file_source ← exceptContext self.filesrc.build
    ("Failed to create FileSrc element")
  let decode_bin ← exceptContext self.decodebin.build
    ("Failed to create DecodeBin element")
  let video_queue_name := "video_queue_" ++ self.variant_name
  let video_queue ← exceptContext
    (PipelineBuilder.create_queue engine video_queue_name)
    ("Failed to create video queue element")
  let video_scaler ← exceptContext
    (PipelineBuilder.create_element engine ("videoscale"))
    ("Failed to create video scaler element")
  let video_caps_filter ← exceptContext self.capsfilter.build
    ("Failed to create CapsFilter element")
  let video_encoder ← exceptContext self.video_encoder.build
    ("Failed to create video encoder element")
  let h264parse_elem ← exceptContext
    (PipelineBuilder.create_element engine ("h264parse"))
    ("Failed to create h264parse element")
  let audio_queue ← exceptContext
    (PipelineBuilder.create_queue engine ("audio_queue"))
    ("Failed to create audio queue")
  let audio_convert ← PipelineBuilder.create_element engine ("audioconvert")
  let audio_resample ← PipelineBuilder.create_element engine ("audioresample")
  let audio_identity0 ← PipelineBuilder.create_element engine ("identity")
  let audio_identity := audio_identity0.setProp ("silent") (.bool false)
  let audio_encoder ← PipelineBuilder.create_element engine ("avenc_aac")
  let aacparse_elem ← PipelineBuilder.create_element engine ("aacparse")
  let muxer ← exceptContext self.mpegtsmux.build
    ("Failed to create MpegTsMux element")
  let hlssink ← exceptContext self.hlssink.build
    ("Failed to create HlsSink3 element")
  let elements := [file_source, decode_bin, video_queue, video_scaler,
    video_caps_filter, video_encoder, h264parse_elem, audio_queue, audio_convert,
    audio_resample, audio_identity, audio_encoder, aacparse_elem, muxer, hlssink]
  let links0 := [(file_source.name, decode_bin.name)]
  let p0 : Pipeline :=
    { name := pipeline_name, elements := elements, links := links0,
      padAddedRegistered := true }
  let links1 :=
    match p0.by_name ("mpegtsmux") with
    | some m => links0 ++ [(m.name, hlssink.name)]
    | none => links0
  .ok { p0 with links := links1 }

/- ----------------------------------------------------------------
The pad-added callback registered in PipelineBuilder::build (the Dynamic
Linker). Its observable state is whether the video and audio queue sink pads
already have a peer; a gst pad link onto an already-linked sink pad fails,
and the closure unwraps every link result. The model assumes the discovered
pad carries caps (the closure also unwraps current_caps()).
---------------------------------------------------------------- -/

/-- Rust str::starts_with, embedded as a prefix test on the character
list so that concrete instances compute. -/
def strStartsWith (s p : String) : Bool :=
  p.data.isPrefixOf s.data

/-- Link state of the two branch entry pads the callback targets. -/
structure PadLinkState where
  videoQueueSinkLinked : Bool
  audioQueueSinkLinked : Bool
  deriving DecidableEq

/-- Embedding of the connect_pad_added closure of PipelineBuilder::build:
when the weak pipeline reference no longer upgrades the callback returns
silently; a video-prefixed pad links to the video queue sink (panicking via
unwrap when that sink pad is already linked), an audio-prefixed pad likewise
to the audio queue, and any other pad type is ignored. -/
def pad_added (pipelineAlive : Bool) (st : PadLinkState) (pad_type : String) :
    PanicOr PadLinkState :=
  if pipelineAlive = false then .ok st
  else if strStartsWith pad_type ("video") then
    if st.videoQueueSinkLinked then
      .panicked ("Failed to link decodebin to video queue")
    else .ok { st with videoQueueSinkLinked := true }
  else if strStartsWith pad_type ("audio") then
    if st.audioQueueSinkLinked then
      .panicked ("Failed to link decodebin to audio queue")
    else .ok { st with audioQueueSinkLinked := true }
  else .ok st

/- ----------------------------------------------------------------
examples/builder_example.rs: the lifecycle controller (bus event loop and
the state requests around it).
---------------------------------------------------------------- -/

/-- A bus message as the event loop matches on it. -/
inductive MessageView where
  | eos
  | error (msg : String)
  | other
  deriving DecidableEq

/-- How the for-loop over bus.iter_timed(ClockTime::NONE) exits on a given
message sequence: break on Eos, early return on Error (with the anyhow
message built by the source), or still blocked when the sequence holds no
terminal message (the iterator has no timeout). -/
inductive LoopExit where
  | eosExit
  | errorReturn (msg : String)
  | blocked
  deriving DecidableEq

/-- Embedding of the event-consumption loop of builder_example main. -/
def eventLoop : List MessageView → LoopExit
  | [] => .blocked
  | .eos :: _ => .eosExit
  | .error m :: _ => .errorReturn ("Error: " ++ m)
  | .other :: rest => eventLoop rest

/-- Embedding of the tail of builder_example main after the pipeline reaches
Playing: consume the bus, and on loop exit report the run result together
with whether the set_state(Null) request was issued; none when the loop never
exits. On the Eos break the source proceeds to pipeline.set_state(Null); on
the Error arm it returns the error before that line. -/
def lifecycleRun (msgs : List MessageView) :
    Option (Except String Unit × Bool) :=
  match eventLoop msgs with
  | .eosExit => some (.ok (), true)
  | .errorReturn m => some (.error m, false)
  | .blocked => none

/- ----------------------------------------------------------------
Claim theorems
---------------------------------------------------------------- -/

/-- C2: the hardware variant accepts a profile inside VALID_PROFILES and
rejects one outside it with an error, as the claim states; but the software
variant, whose allowed set is empty, does not validate as a no-op: its
with_profile is todo!() and panics on every input, contradicting the claim
(and the trait documentation, which promises an error return). -/
theorem software_profile_validation_panics :
    (∀ b : NVH264EncBuilder, ∃ b2,
      b.with_profile ("high") = .ok (.ok b2)) ∧
    (∀ b : NVH264EncBuilder, ∃ m,
      b.with_profile ("speed") = .ok (.error m)) ∧
    Xh264EncBuilder.VALID_PROFILES = [] ∧
    (∀ (b : Xh264EncBuilder) (p : String),
      b.with_profile p = .panicked ("not yet implemented")) := by
  refine ⟨fun b => ⟨_, rfl⟩, fun b => ⟨_, rfl⟩, rfl, fun b p => rfl⟩

/-- C4: on a graph whose video branch is already routed, a second discovered
video stream makes the pad-added callback panic (the closure unwraps the
failed pad link), aborting the process instead of rejecting or ignoring the
stream; the audio branch behaves the same way. -/
theorem second_stream_of_same_kind_aborts :
    (pad_added true
        { videoQueueSinkLinked := false, audioQueueSinkLinked := false }
        ("video/x-raw")).bind
      (fun st => pad_added true st ("video/x-raw")) =
        .panicked ("Failed to link decodebin to video queue") ∧
    (pad_added true
        { videoQueueSinkLinked := false, audioQueueSinkLinked := false }
        ("audio/x-raw")).bind
      (fun st => pad_added true st ("audio/x-raw")) =
        .panicked ("Failed to link decodebin to audio queue") := by
  exact ⟨by decide, by decide⟩

/-- C5: when the engine cannot instantiate the requested encoder factory, the
builder constructors panic through expect/unwrap rather than returning an
ElementCreationFailed-style error; the build() methods, the only places a
Result is produced, never fail, so no creation error can propagate to the
caller. -/
theorem encoder_creation_failure_panics :
    NVH264EncBuilder.new (fun _ => false) =
      .panicked ("Failed to create nvh264enc element") ∧
    Xh264EncBuilder.new (fun _ => false) =
      .panicked ("called Option::unwrap on a None value") ∧
    (∀ b : NVH264EncBuilder, b.build = .ok b.element) ∧
    (∀ b : Xh264EncBuilder, b.build = .ok b.element) := by
  exact ⟨rfl, rfl, fun _ => rfl, fun _ => rfl⟩

/-- C6: the event loop exits successfully on EndOfStream, exits with failure
on an Error event with the error message embedded verbatim in the reported
failure, skips every other event kind, and never times out: a message
sequence of only ignorable events leaves it blocked. -/
theorem event_loop_terminal_behavior (m : String)
    (rest rest2 : List MessageView) (n : Nat) :
    eventLoop (MessageView.eos :: rest) = .eosExit ∧
    (∃ pre, eventLoop (MessageView.error m :: rest) =
      .errorReturn (pre ++ m)) ∧
    eventLoop (MessageView.other :: rest2) = eventLoop rest2 ∧
    eventLoop (List.replicate n MessageView.other) = .blocked := by
  refine ⟨rfl, ⟨("Error: "), rfl⟩, rfl, ?_⟩
  induction n with
  | zero => rfl
  | succ k ih => simpa [List.replicate, eventLoop] using ih

/-- C3 counterexample: on a bus programmed to emit Error before EndOfStream,
the controller returns the failure but the set-Null request is not issued
(the Error arm returns before the set_state(Null) line), refuting the claim
that the Null request is unconditional. -/
theorem error_exit_skips_null_request :
    lifecycleRun [MessageView.error ("decode failure"), MessageView.eos] =
      some (.error ("Error: " ++ ("decode failure")), false) := rfl

/-- C3 amended: the controller issues the set-Null request exactly when the
event loop exits via EndOfStream; when the loop exits via an Error event it
returns the failure, message preserved, without issuing the Null request. -/
theorem null_request_only_on_eos (msgs : List MessageView) :
    (eventLoop msgs = .eosExit → lifecycleRun msgs = some (.ok (), true)) ∧
    (∀ m, eventLoop msgs = .errorReturn m →
      lifecycleRun msgs = some (.error m, false)) := by
  constructor
  · intro h
    unfold lifecycleRun
    rw [h]
  · intro m h
    unfold lifecycleRun
    rw [h]

/-- Witness for the amended C3 theorem at concrete message sequences. -/
theorem null_request_only_on_eos_witness :
    lifecycleRun [MessageView.eos] = some (.ok (), true) ∧
    lifecycleRun [MessageView.error ("decode failure")] =
      some (.error ("Error: " ++ ("decode failure")), false) :=
  ⟨(null_request_only_on_eos [MessageView.eos]).1 rfl,
   (null_request_only_on_eos [MessageView.error ("decode failure")]).2
     ("Error: " ++ ("decode failure")) rfl⟩

/-- Count of elements created from a given factory in the built pipeline. -/
def Pipeline.countFactory (p : Pipeline) (f : String) : Nat :=
  (p.elements.filter (fun e => e.factory == f)).length

/-- C7: with every required factory available, new + build succeed and the
returned graph holds exactly one source, one decoder, one muxer and one
segment writer, together with the full video and audio branch stubs, and the
only links established before stream discovery are source to decoder and
muxer to segment writer; the decoder-to-branch links are left to the
registered pad-added callback. -/
theorem build_static_topology (engine : Engine) (h : ∀ f, engine f = true)
    (inp out variant : String) (w ht : Int) (br : Nat) :
    ∃ pb p,
      PipelineBuilder.new engine inp out variant w ht br true = .ok pb ∧
      PipelineBuilder.build engine pb = .ok p ∧
      p.countFactory ("filesrc") = 1 ∧
      p.countFactory ("decodebin") = 1 ∧
      p.countFactory ("mpegtsmux") = 1 ∧
      p.countFactory ("hlssink") = 1 ∧
      p.elements.map Element.name =
        [("filesrc"), ("decodebin"), "video_queue_" ++ variant,
         ("videoscale"), ("capsfilter"), ("video_encoder"), ("h264parse"),
         ("audio_queue"), ("audioconvert"), ("audioresample"), ("identity"),
         ("avenc_aac"), ("aacparse"), ("mpegtsmux"), ("hls_sink")] ∧
      p.links =
        [(("filesrc"), ("decodebin")), (("mpegtsmux"), ("hls_sink"))] ∧
      p.padAddedRegistered = true := by
  have he : engine = fun _ => true := funext h
  subst he
  exact ⟨_, _, rfl, rfl, rfl, rfl, rfl, rfl, rfl, rfl, rfl⟩

/-- Witness for C7 at a fully available engine and concrete arguments. -/
theorem build_static_topology_witness :
    ∃ pb p,
      PipelineBuilder.new (fun _ => true) ("in.mp4") ("out") ("v1")
        1280 720 1000000 true = .ok pb ∧
      PipelineBuilder.build (fun _ => true) pb = .ok p ∧
      p.countFactory ("filesrc") = 1 ∧
      p.countFactory ("decodebin") = 1 ∧
      p.countFactory ("mpegtsmux") = 1 ∧
      p.countFactory ("hlssink") = 1 ∧
      p.elements.map Element.name =
        [("filesrc"), ("decodebin"), "video_queue_" ++ ("v1"),
         ("videoscale"), ("capsfilter"), ("video_encoder"), ("h264parse"),
         ("audio_queue"), ("audioconvert"), ("audioresample"), ("identity"),
         ("avenc_aac"), ("aacparse"), ("mpegtsmux"), ("hls_sink")] ∧
      p.links =
        [(("filesrc"), ("decodebin")), (("mpegtsmux"), ("hls_sink"))] ∧
      p.padAddedRegistered = true :=
  build_static_topology (fun _ => true) (fun _ => rfl) ("in.mp4") ("out")
    ("v1") 1280 720 1000000

/-- Segment location stored by the builder, none when construction panics. -/
def hlssinkLocationOf : PanicOr PipelineBuilder → Option PropVal
  | .ok pb => pb.hlssink.element.getProp ("location")
  | .panicked _ => none

/-- Playlist location stored by the builder, none when construction panics. -/
def hlssinkPlaylistOf : PanicOr PipelineBuilder → Option PropVal
  | .ok pb => pb.hlssink.element.getProp ("playlist-location")
  | .panicked _ => none

/-- C8 counterexample: at output root out and variant v1 the configured
segment pattern is out/v1/segment_%02d.ts and the manifest path is
out/v1/playlist.m3u8, not the extensionless out/v1/segment_%02d and
out/v1/playlist the claim states. -/
theorem segment_paths_carry_extensions :
    hlssinkLocationOf (PipelineBuilder.new (fun _ => true) ("in.mp4")
        ("out") ("v1") 1280 720 1000000 true) =
      some (.str ("out/v1/segment_%02d.ts")) ∧
    some (PropVal.str ("out/v1/segment_%02d.ts")) ≠
      some (PropVal.str ("out/v1/segment_%02d")) ∧
    hlssinkPlaylistOf (PipelineBuilder.new (fun _ => true) ("in.mp4")
        ("out") ("v1") 1280 720 1000000 true) =
      some (.str ("out/v1/playlist.m3u8")) ∧
    some (PropVal.str ("out/v1/playlist.m3u8")) ≠
      some (PropVal.str ("out/v1/playlist")) := by
  refine ⟨rfl, by decide, rfl, by decide⟩

/-- C8 amended: the segment writer is configured with segment pattern
output_root/variant_name/segment_%02d.ts, manifest path
output_root/variant_name/playlist.m3u8, target segment duration 5 seconds
and an unbounded (0) maximum on-disk file count. -/
theorem segmenter_configuration (engine : Engine) (h : ∀ f, engine f = true)
    (inp out variant : String) (w ht : Int) (br : Nat) (accel : Bool) :
    ∃ pb, PipelineBuilder.new engine inp out variant w ht br accel = .ok pb ∧
      pb.hlssink.element.getProp ("location") =
        some (.str ((out ++ "/" ++ variant) ++ "/segment_%02d.ts")) ∧
      pb.hlssink.element.getProp ("playlist-location") =
        some (.str ((out ++ "/" ++ variant) ++ "/playlist.m3u8")) ∧
      pb.hlssink.element.getProp ("target-duration") = some (.uint 5) ∧
      pb.hlssink.element.getProp ("max-files") = some (.uint 0) := by
  have he : engine = fun _ => true := funext h
  subst he
  cases accel
  · exact ⟨_, rfl, rfl, rfl, rfl, rfl⟩
  · exact ⟨_, rfl, rfl, rfl, rfl, rfl⟩

/-- Witness for the amended C8 theorem at concrete arguments. -/
theorem segmenter_configuration_witness :
    ∃ pb, PipelineBuilder.new (fun _ => true) ("in.mp4") ("out") ("v1")
        1280 720 500000 false = .ok pb ∧
      pb.hlssink.element.getProp ("location") =
        some (.str ((("out") ++ "/" ++ ("v1")) ++ "/segment_%02d.ts")) ∧
      pb.hlssink.element.getProp ("playlist-location") =
        some (.str ((("out") ++ "/" ++ ("v1")) ++ "/playlist.m3u8")) ∧
      pb.hlssink.element.getProp ("target-duration") = some (.uint 5) ∧
      pb.hlssink.element.getProp ("max-files") = some (.uint 0) :=
  segmenter_configuration (fun _ => true) (fun _ => rfl) ("in.mp4") ("out")
    ("v1") 1280 720 500000 false

/-- C10: the muxer builder's own defaults are PAT interval 500, PMT interval
500 and PCR interval 20; every graph the pipeline builder produces overrides
them to PAT 2000 and PCR 40 while the PMT interval keeps the default 500. -/
theorem muxer_interval_overrides (engine : Engine) (h : ∀ f, engine f = true)
    (inp out variant : String) (w ht : Int) (br : Nat) (accel : Bool) :
    (∃ m, MpegTsMuxBuilder.new engine = .ok m ∧
      m.element.getProp ("pat-interval") = some (.uint 500) ∧
      m.element.getProp ("pmt-interval") = some (.uint 500) ∧
      m.element.getProp ("pcr-interval") = some (.uint 20)) ∧
    (∃ pb p e,
      PipelineBuilder.new engine inp out variant w ht br accel = .ok pb ∧
      PipelineBuilder.build engine pb = .ok p ∧
      p.by_name ("mpegtsmux") = some e ∧
      e.getProp ("pat-interval") = some (.uint 2000) ∧
      e.getProp ("pcr-interval") = some (.uint 40) ∧
      e.getProp ("pmt-interval") = some (.uint 500)) := by
  have he : engine = fun _ => true := funext h
  subst he
  cases accel
  · exact ⟨⟨_, rfl, rfl, rfl, rfl⟩, ⟨_, _, _, rfl, rfl, rfl, rfl, rfl, rfl⟩⟩
  · exact ⟨⟨_, rfl, rfl, rfl, rfl⟩, ⟨_, _, _, rfl, rfl, rfl, rfl, rfl, rfl⟩⟩

/-- Witness for C10 at a fully available engine and concrete arguments. -/
theorem muxer_interval_overrides_witness :
    (∃ m, MpegTsMuxBuilder.new (fun _ => true) = .ok m ∧
      m.element.getProp ("pat-interval") = some (.uint 500) ∧
      m.element.getProp ("pmt-interval") = some (.uint 500) ∧
      m.element.getProp ("pcr-interval") = some (.uint 20)) ∧
    (∃ pb p e,
      PipelineBuilder.new (fun _ => true) ("in.mp4") ("out") ("v1")
        1280 720 1000000 true = .ok pb ∧
      PipelineBuilder.build (fun _ => true) pb = .ok p ∧
      p.by_name ("mpegtsmux") = some e ∧
      e.getProp ("pat-interval") = some (.uint 2000) ∧
      e.getProp ("pcr-interval") = some (.uint 40) ∧
      e.getProp ("pmt-interval") = some (.uint 500)) :=
  muxer_interval_overrides (fun _ => true) (fun _ => rfl) ("in.mp4") ("out")
    ("v1") 1280 720 1000000 true

end HlsTranscoder
